import Mathlib

/-!
Shallow embedding of `src/Main.py` (a FastAPI cannabis-inventory movement
service) and verification of the spec's claims about it.

Modelling conventions:
* The sqlite `packages` table is an association list keyed by `tag_id`
  (the primary key), the `movements` table a list in insertion order with
  an `AUTOINCREMENT` counter carried as `nextId`.
* `data.get(k)` on the request dict is an `Option String`; Python truthiness
  of a string field (`not tag_id`) is `falsy` below (missing or empty).
* `datetime.now().isoformat()` is an oracle parameter `now`.
* sqlite write/commit failures are oracle flags in `StorageOracle`; since
  both writes are buffered until the single `conn.commit()` and
  `conn.close()` rolls back an uncommitted transaction, a failure anywhere
  in the critical section leaves the database unchanged.
* The `requests.post` call to METRC is the oracle `MetrcResult`: an HTTP
  status (with body text) or a raised network exception.
* Each connected WebSocket client either accepts `send_json` or raises
  (`sendOk`); the Python `for` loop awaits them sequentially and an
  exception propagates out of `broadcast`.
* Appends to the `pending_metrc_sync.json` retry file are a list of JSON
  objects, each an association list of string fields.
-/

/-- A row of the `packages` table (minus the `tag_id` key). -/
structure Package where
  location : String
  last_updated : String
  status : String
deriving Repr, DecidableEq

/-- A row of the `movements` table. `metrc_synced` is the sqlite BOOLEAN
column: the source stores only `False` (pending) or `True` (confirmed). -/
structure MovementRecord where
  id : Nat
  tag_id : String
  from_location : String
  to_location : String
  timestamp : String
  metrc_synced : Bool
deriving Repr, DecidableEq

/-- The sqlite database `cannabis_inventory.db`. -/
structure DB where
  packages : List (String × Package)
  movements : List MovementRecord
  nextId : Nat
deriving Repr, DecidableEq

/-- Durable state touched by the service: the database plus the
`pending_metrc_sync.json` retry file (a sequence of appended JSON lines). -/
structure AppState where
  db : DB
  pendingSyncFile : List (List (String × String))
deriving Repr, DecidableEq

/-- The module-level credential constants `METRC_API_KEY` / `FACILITY_LICENSE`. -/
structure Config where
  metrc_api_key : String
  facility_license : String
deriving Repr, DecidableEq

/-- As shipped, both credentials are the empty string (Main.py lines 19-21). -/
def shippedConfig : Config := { metrc_api_key := "", facility_license := "" }

/-- Outcome of the `requests.post` call in `sync_with_metrc`: either a
response with a status code and body, or a raised exception (network error). -/
inductive MetrcResult where
  | status (code : Nat) (text : String)
  | netError (msg : String)
deriving Repr, DecidableEq

/-- Oracle for sqlite failures inside the critical section of `move_package`. -/
structure StorageOracle where
  updateFails : Bool
  insertFails : Bool
  commitFails : Bool
deriving Repr, DecidableEq

/-- A connected WebSocket client: `sendOk` is whether `send_json` succeeds
(a disconnected client raises). -/
structure Client where
  name : String
  sendOk : Bool
deriving Repr, DecidableEq

/-- `fastapi.HTTPException`, as surfaced to the transport layer. -/
structure HTTPError where
  status_code : Nat
  detail : String
deriving Repr, DecidableEq

/-- `str(e)` for a starlette/fastapi `HTTPException`. -/
def strOfHTTPError (e : HTTPError) : String :=
  toString e.status_code ++ ": " ++ e.detail

/-- The JSON body of the move request; `data.get` yields `none` for a
missing key. -/
structure MoveRequest where
  tag_id : Option String
  from_location : Option String
  to_location : Option String
deriving Repr, DecidableEq

/-- Python falsiness of an optional string field: missing or empty. -/
def falsy : Option String → Bool
  | none => true
  | some s => s == ""

/-- `SELECT location, ... FROM packages WHERE tag_id = ?` (primary-key lookup). -/
def pkgLookup (ps : List (String × Package)) (tid : String) : Option Package :=
  (ps.find? (fun p => p.1 == tid)).map (fun p => p.2)

/-- `UPDATE packages SET ... WHERE tag_id = ?`: rewrites every row whose key
matches (at most one, `tag_id` being the primary key). -/
def pkgUpdate (ps : List (String × Package)) (tid : String) (f : Package → Package) :
    List (String × Package) :=
  ps.map (fun p => if p.1 == tid then (p.1, f p.2) else p)

/-- The critical section of `move_package` (Main.py lines 84-92): the
`UPDATE packages` row write, the `INSERT INTO movements` append, and the
single `conn.commit()`. If any of the three sqlite operations raises, the
transaction is never committed and `conn.close()` rolls it back, so the
error case leaves the database untouched; the caller sees the sqlite
error message. -/
def commitDB (timestamp tid fromLoc toLoc : String) (db : DB) : DB :=
  { packages := pkgUpdate db.packages tid
      (fun p => { p with location := toLoc, last_updated := timestamp,
                         status := "Active" }),
    movements := db.movements ++
      [{ id := db.nextId, tag_id := tid, from_location := fromLoc,
         to_location := toLoc, timestamp := timestamp,
         metrc_synced := false }],
    nextId := db.nextId + 1 }

def move_commit (st : StorageOracle) (timestamp tid fromLoc toLoc : String)
    (db : DB) : Except String DB :=
  if st.updateFails || st.insertFails || st.commitFails then
    .error "database error"
  else
    .ok (commitDB timestamp tid fromLoc toLoc db)

/-- `broadcast` (Main.py lines 57-59): `for client in connected_clients:
await client.send_json(data)`. Returns the (client, event) deliveries that
happened and whether the loop finished without an exception; a raising
client aborts the loop, so clients after it receive nothing. -/
def broadcast (event : List (String × String)) :
    List Client → List (String × List (String × String)) × Bool
  | [] => ([], true)
  | c :: rest =>
    if c.sendOk then
      let r := broadcast event rest
      ((c.name, event) :: r.1, r.2)
    else
      ([], false)

/-- The payload built in `sync_with_metrc` (Main.py lines 119-124). -/
def metrcPayload (cfg : Config) (tid newLoc ts : String) : List (String × String) :=
  [("licenseNumber", cfg.facility_license), ("packageLabel", tid),
   ("room", newLoc), ("moveDateTime", ts)]

/-- The per-record flag update performed on a 200 response:
`UPDATE movements SET metrc_synced = True WHERE tag_id = ? AND timestamp = ?`. -/
def syncMark (tid ts : String) (r : MovementRecord) : MovementRecord :=
  if r.tag_id == tid && r.timestamp == ts then { r with metrc_synced := true } else r

/-- `sync_with_metrc` (Main.py lines 116-146). On a 200 response it flips
`metrc_synced` for the matching movement rows; on any other status it
appends the METRC payload to `pending_metrc_sync.json`; on a raised
exception it appends the fallback `{tag_id, new_location, timestamp}`
object instead. All exceptions are caught inside, so it always returns. -/
def sync_with_metrc (cfg : Config) (res : MetrcResult)
    (tid newLoc ts : String) (s : AppState) : AppState :=
  match res with
  | .status code _ =>
    if code == 200 then
      { s with db := { s.db with
          movements := s.db.movements.map (syncMark tid ts) } }
    else
      { s with pendingSyncFile := s.pendingSyncFile ++ [metrcPayload cfg tid newLoc ts] }
  | .netError _ =>
    { s with pendingSyncFile := s.pendingSyncFile ++
        [[("tag_id", tid), ("new_location", newLoc), ("timestamp", ts)]] }

/-- Everything observable about one `move_package` call: the HTTP response
(success body or `HTTPException`), the durable state afterwards, which
clients received the broadcast, and whether a METRC submission was
attempted. -/
structure MoveOutcome where
  response : Except HTTPError (List (String × String))
  state : AppState
  delivered : List (String × List (String × String))
  syncAttempted : Bool
deriving Repr

/-- The JSON object broadcast to WebSocket clients (Main.py lines 96-101). -/
def moveEvent (data : MoveRequest) (now : String) : List (String × String) :=
  [("tag_id", data.tag_id.getD ""), ("from_location", data.from_location.getD ""),
   ("to_location", data.to_location.getD ""), ("timestamp", now)]

/-- `move_package` (Main.py lines 62-113). The missing-fields check (line 68)
runs before the `try` block, so its 400 reaches the caller unwrapped. Every
exception raised inside the `try` — including the `HTTPException(404)` for
an unknown tag and the `HTTPException(400)` for a location mismatch — is
caught by `except Exception` (line 109) and re-raised as
`HTTPException(500, str(e))`. A broadcast exception after the commit is
likewise turned into a 500, with the committed state kept. METRC sync runs
only when both credentials are non-empty (line 104). The Python local
variables (`tag_id`, `timestamp`, the event dict) are inlined here; the
broadcast call is written once per field it feeds, all denoting the same
single loop over the clients. -/
def move_package (cfg : Config) (now : String) (st : StorageOracle)
    (metrc : MetrcResult) (clients : List Client)
    (data : MoveRequest) (s : AppState) : MoveOutcome :=
  if falsy data.tag_id || falsy data.from_location || falsy data.to_location then
    { response := .error { status_code := 400, detail := "Missing required fields" },
      state := s, delivered := [], syncAttempted := false }
  else
    match pkgLookup s.db.packages (data.tag_id.getD "") with
    | none =>
      { response := .error ⟨500, strOfHTTPError
          ⟨404, "Package " ++ data.tag_id.getD "" ++ " not found"⟩⟩,
        state := s, delivered := [], syncAttempted := false }
    | some pkg =>
      if pkg.location != data.from_location.getD "" then
        { response := .error ⟨500, strOfHTTPError
            ⟨400, "Package " ++ data.tag_id.getD "" ++ " is in " ++ pkg.location ++
              ", not " ++ data.from_location.getD ""⟩⟩,
          state := s, delivered := [], syncAttempted := false }
      else
        match move_commit st now (data.tag_id.getD "") (data.from_location.getD "")
          (data.to_location.getD "") s.db with
        | .error msg =>
          { response := .error { status_code := 500, detail := msg },
            state := s, delivered := [], syncAttempted := false }
        | .ok db1 =>
          if (broadcast (moveEvent data now) clients).2 then
            if cfg.metrc_api_key != "" && cfg.facility_license != "" then
              { response := .ok [("message", "Package moved successfully")],
                state := sync_with_metrc cfg metrc (data.tag_id.getD "")
                  (data.to_location.getD "") now { s with db := db1 },
                delivered := (broadcast (moveEvent data now) clients).1,
                syncAttempted := true }
            else
              { response := .ok [("message", "Package moved successfully")],
                state := { s with db := db1 },
                delivered := (broadcast (moveEvent data now) clients).1,
                syncAttempted := false }
          else
            { response := .error { status_code := 500, detail := "websocket send error" },
              state := { s with db := db1 },
              delivered := (broadcast (moveEvent data now) clients).1,
              syncAttempted := false }

/-- Project the HTTP status code out of a response (none on success). -/
def statusOf {α : Type} : Except HTTPError α → Option Nat
  | .error e => some e.status_code
  | .ok _ => none

/-- Project the success body out of a response. -/
def okPayload : Except HTTPError (List (String × String)) →
    Option (List (String × String))
  | .ok v => some v
  | .error _ => none

/-- One `move_package` invocation's inputs (oracles included). -/
structure MoveInput where
  cfg : Config
  now : String
  st : StorageOracle
  metrc : MetrcResult
  clients : List Client
  data : MoveRequest
deriving Repr

/-- Run a sequence of move requests, threading the durable state. -/
def runMoves (s : AppState) (steps : List MoveInput) : AppState :=
  steps.foldl
    (fun acc i => (move_package i.cfg i.now i.st i.metrc i.clients i.data acc).state) s

/-- The most recent committed movement row for a unit (rows are appended in
commit order, so it is the last matching row). -/
def lastMovementFor (s : AppState) (tid : String) : Option MovementRecord :=
  s.db.movements.reverse.find? (fun r => r.tag_id == tid)

/-- Spec §3 invariant: the registry `location` of every unit equals the
`to_location` of its most recent committed movement row. -/
def RegistryLedgerInv (s : AppState) : Prop :=
  ∀ tid r, lastMovementFor s tid = some r →
    (pkgLookup s.db.packages tid).map Package.location = some r.to_location

def vegPkg : Package :=
  { location := "VegRoom", last_updated := "2024-01-01T00:00:00", status := "Active" }

def baseState : AppState :=
  { db := { packages := [("T1", vegPkg)], movements := [], nextId := 1 },
    pendingSyncFile := [] }

def benignStorage : StorageOracle :=
  { updateFails := false, insertFails := false, commitFails := false }

def goodReq : MoveRequest :=
  { tag_id := some "T1", from_location := some "VegRoom", to_location := some "FlowerRoom" }

def metrcOk : MetrcResult := .status 200 "ok"

def metrcDown : MetrcResult := .status 503 "unavailable"

def credCfg : Config := { metrc_api_key := "key", facility_license := "LIC-1" }

def flowerPkg : Package :=
  { location := "FlowerRoom", last_updated := "t1", status := "Active" }

def rec1 : MovementRecord :=
  { id := 1, tag_id := "T1", from_location := "VegRoom",
    to_location := "FlowerRoom", timestamp := "t1", metrc_synced := false }

def movedState : AppState :=
  { db := { packages := [("T1", flowerPkg)], movements := [rec1], nextId := 2 },
    pendingSyncFile := [] }

def oneGoodStep : MoveInput :=
  { cfg := shippedConfig, now := "t1", st := benignStorage, metrc := metrcOk,
    clients := [], data := goodReq }

def failStorage : StorageOracle :=
  { updateFails := true, insertFails := false, commitFails := false }

/-- The movement row inserted by a successful move (Main.py lines 89-90). -/
def newMovementRecord (data : MoveRequest) (now : String) (db : DB) : MovementRecord :=
  { id := db.nextId, tag_id := data.tag_id.getD "",
    from_location := data.from_location.getD "",
    to_location := data.to_location.getD "", timestamp := now,
    metrc_synced := false }

/-- A failing METRC submission: non-200 status or raised network error
(Main.py lines 128, 136-146). -/
def metrcFailed : MetrcResult → Prop
  | .status code _ => code ≠ 200
  | .netError _ => True

/-- A ledger row survives as a row with the same identity fields whose sync
flag has only moved forward (false to true). -/
def recordKept (r rkept : MovementRecord) : Prop :=
  rkept.id = r.id ∧ rkept.tag_id = r.tag_id ∧
  rkept.from_location = r.from_location ∧ rkept.to_location = r.to_location ∧
  rkept.timestamp = r.timestamp ∧
  (r.metrc_synced = true → rkept.metrc_synced = true)

/-- The registry row produced by the UPDATE of a successful move
(Main.py lines 85-86). -/
def movedPackage (data : MoveRequest) (now : String) (pkg : Package) : Package :=
  { pkg with location := data.to_location.getD "", last_updated := now,
             status := "Active" }

/-- The durable state right after a successful commit of a move request. -/
def committedAppState (data : MoveRequest) (now : String) (s : AppState) : AppState :=
  { s with
    db := commitDB now (data.tag_id.getD "") (data.from_location.getD "")
      (data.to_location.getD "") s.db }


lemma find?_map_comm {α : Type} (g : α → α) (p : α → Bool)
    (hp : ∀ a, p (g a) = p a) :
    ∀ l : List α, (l.map g).find? p = (l.find? p).map g := by
  intro l
  induction l with
  | nil => rfl
  | cons a t ih =>
    simp only [List.map_cons, List.find?]
    rw [hp a]
    cases h : p a
    · simpa [h] using ih
    · simp [h]

lemma syncMark_tag_id (tid ts : String) (r : MovementRecord) :
    (syncMark tid ts r).tag_id = r.tag_id := by
  unfold syncMark; split <;> rfl

lemma syncMark_to_location (tid ts : String) (r : MovementRecord) :
    (syncMark tid ts r).to_location = r.to_location := by
  unfold syncMark; split <;> rfl

lemma syncMark_id (tid ts : String) (r : MovementRecord) :
    (syncMark tid ts r).id = r.id := by
  unfold syncMark; split <;> rfl

lemma syncMark_from_location (tid ts : String) (r : MovementRecord) :
    (syncMark tid ts r).from_location = r.from_location := by
  unfold syncMark; split <;> rfl

lemma syncMark_timestamp (tid ts : String) (r : MovementRecord) :
    (syncMark tid ts r).timestamp = r.timestamp := by
  unfold syncMark; split <;> rfl

lemma syncMark_synced_mono (tid ts : String) (r : MovementRecord)
    (h : r.metrc_synced = true) : (syncMark tid ts r).metrc_synced = true := by
  unfold syncMark; split <;> simp [h]

lemma find?_cons_true {α : Type} (p : α → Bool) (a : α) (l : List α)
    (h : p a = true) : (a :: l).find? p = some a := by
  simp [List.find?, h]

lemma find?_cons_false {α : Type} (p : α → Bool) (a : α) (l : List α)
    (h : p a = false) : (a :: l).find? p = l.find? p := by
  simp [List.find?, h]

lemma pkgLookup_pkgUpdate_self (ps : List (String × Package)) (tid : String)
    (f : Package → Package) :
    pkgLookup (pkgUpdate ps tid f) tid = (pkgLookup ps tid).map f := by
  induction ps with
  | nil => rfl
  | cons p t ih =>
    by_cases h : (p.1 == tid) = true
    · unfold pkgUpdate pkgLookup
      simp only [List.map_cons, if_pos h]
      rw [find?_cons_true (fun q => q.1 == tid) (p.1, f p.2) _ h,
        find?_cons_true (fun q => q.1 == tid) p _ h]
      rfl
    · unfold pkgUpdate pkgLookup
      simp only [List.map_cons, if_neg h]
      have hb : ((p.1 : String) == tid) = false := by simpa using h
      rw [find?_cons_false (fun q => q.1 == tid) p _ hb,
        find?_cons_false (fun q => q.1 == tid) p _ hb]
      exact ih

lemma pkgLookup_pkgUpdate_ne (ps : List (String × Package)) (tid tid2 : String)
    (f : Package → Package) (h : tid2 ≠ tid) :
    pkgLookup (pkgUpdate ps tid f) tid2 = pkgLookup ps tid2 := by
  induction ps with
  | nil => rfl
  | cons p t ih =>
    by_cases hk : (p.1 == tid) = true
    · have hk2 : ((p.1 : String) == tid2) = false := by
        have hpk : p.1 = tid := by simpa using hk
        subst hpk
        simpa using fun hc => h hc.symm
      unfold pkgUpdate pkgLookup
      simp only [List.map_cons, if_pos hk]
      rw [find?_cons_false (fun q => q.1 == tid2) (p.1, f p.2) _ hk2,
        find?_cons_false (fun q => q.1 == tid2) p _ hk2]
      exact ih
    · unfold pkgUpdate pkgLookup
      simp only [List.map_cons, if_neg hk]
      by_cases hk2 : (p.1 == tid2) = true
      · rw [find?_cons_true (fun q => q.1 == tid2) p _ hk2,
          find?_cons_true (fun q => q.1 == tid2) p _ hk2]
      · have hb2 : ((p.1 : String) == tid2) = false := by simpa using hk2
        rw [find?_cons_false (fun q => q.1 == tid2) p _ hb2,
          find?_cons_false (fun q => q.1 == tid2) p _ hb2]
        exact ih

lemma lastIn_append (l : List MovementRecord) (rec : MovementRecord) (tid : String) :
    (l ++ [rec]).reverse.find? (fun r => r.tag_id == tid) =
      if rec.tag_id == tid then some rec
      else l.reverse.find? (fun r => r.tag_id == tid) := by
  rw [List.reverse_append]
  by_cases h : (rec.tag_id == tid) = true
  · rw [if_pos h]
    simp only [List.reverse_singleton, List.singleton_append]
    rw [find?_cons_true (fun r => r.tag_id == tid) rec _ h]
  · rw [if_neg h]
    simp only [List.reverse_singleton, List.singleton_append]
    have hb : (rec.tag_id == tid) = false := by simpa using h
    rw [find?_cons_false (fun r => r.tag_id == tid) rec _ hb]

lemma sync_packages (cfg : Config) (res : MetrcResult) (tid nl ts : String)
    (s : AppState) :
    (sync_with_metrc cfg res tid nl ts s).db.packages = s.db.packages := by
  cases res with
  | status code text =>
    simp only [sync_with_metrc]
    by_cases h : (code == 200) = true
    · rw [if_pos h]
    · rw [if_neg h]
  | netError msg => rfl

lemma sync_movements_200 (cfg : Config) (code : Nat) (text : String)
    (tid nl ts : String) (s : AppState) (h : (code == 200) = true) :
    (sync_with_metrc cfg (.status code text) tid nl ts s).db.movements =
      s.db.movements.map (syncMark tid ts) := by
  simp only [sync_with_metrc]
  rw [if_pos h]

lemma sync_movements_not200 (cfg : Config) (code : Nat) (text : String)
    (tid nl ts : String) (s : AppState) (h : (code == 200) = false) :
    (sync_with_metrc cfg (.status code text) tid nl ts s).db.movements =
      s.db.movements := by
  simp only [sync_with_metrc]
  rw [if_neg (by simp [h])]

lemma lastMovementFor_sync_to_location (cfg : Config) (res : MetrcResult)
    (tid nl ts : String) (s : AppState) (tid2 : String) :
    (lastMovementFor (sync_with_metrc cfg res tid nl ts s) tid2).map
        MovementRecord.to_location =
      (lastMovementFor s tid2).map MovementRecord.to_location := by
  cases res with
  | netError msg => rfl
  | status code text =>
    unfold lastMovementFor
    by_cases h200 : (code == 200) = true
    · rw [sync_movements_200 cfg code text tid nl ts s h200]
      rw [← List.map_reverse,
        find?_map_comm (syncMark tid ts) (fun r => r.tag_id == tid2)
          (fun r => by simp [syncMark_tag_id]) s.db.movements.reverse]
      cases hf : s.db.movements.reverse.find? (fun r => r.tag_id == tid2) <;>
        simp [hf, syncMark_to_location]
    · rw [sync_movements_not200 cfg code text tid nl ts s (by simpa using h200)]

lemma RegistryLedgerInv_commitState (s : AppState) (tid fromLoc toLoc now : String)
    (pkg : Package) (hfind : pkgLookup s.db.packages tid = some pkg)
    (h : RegistryLedgerInv s) :
    RegistryLedgerInv { s with db := commitDB now tid fromLoc toLoc s.db } := by
  intro tid2 r hr
  unfold lastMovementFor commitDB at hr
  dsimp only at hr
  rw [lastIn_append] at hr
  unfold commitDB
  dsimp only
  by_cases heq : tid = tid2
  · subst heq
    rw [if_pos (by simp)] at hr
    cases hr
    rw [pkgLookup_pkgUpdate_self, hfind]
    rfl
  · rw [if_neg (by simpa using fun hc => heq hc)] at hr
    rw [pkgLookup_pkgUpdate_ne _ _ _ _ (fun hc => heq hc.symm)]
    exact h tid2 r hr

lemma RegistryLedgerInv_sync (cfg : Config) (res : MetrcResult)
    (tid nl ts : String) (s : AppState) (h : RegistryLedgerInv s) :
    RegistryLedgerInv (sync_with_metrc cfg res tid nl ts s) := by
  intro tid2 r hr
  have hto := lastMovementFor_sync_to_location cfg res tid nl ts s tid2
  rw [hr] at hto
  rw [sync_packages]
  cases hlast : lastMovementFor s tid2 with
  | none => rw [hlast] at hto; simp at hto
  | some r0 =>
    rw [hlast] at hto
    simp only [Option.map_some'] at hto
    rw [h tid2 r0 hlast]
    exact hto.symm

lemma RegistryLedgerInv_step (cfg : Config) (now : String) (st : StorageOracle)
    (metrc : MetrcResult) (clients : List Client) (data : MoveRequest)
    (s : AppState) (h : RegistryLedgerInv s) :
    RegistryLedgerInv (move_package cfg now st metrc clients data s).state := by
  unfold move_package
  split
  · exact h
  split
  · exact h
  rename_i pkg hlook
  split
  · exact h
  split
  · exact h
  rename_i db1 hcommit
  unfold move_commit at hcommit
  split at hcommit
  · cases hcommit
  cases hcommit
  have hcommitted := RegistryLedgerInv_commitState s (data.tag_id.getD "")
    (data.from_location.getD "") (data.to_location.getD "") now pkg hlook h
  split
  · split
    · exact RegistryLedgerInv_sync _ _ _ _ _ _ hcommitted
    · exact hcommitted
  · exact hcommitted

lemma RegistryLedgerInv_runMoves (s : AppState) (steps : List MoveInput)
    (h : RegistryLedgerInv s) : RegistryLedgerInv (runMoves s steps) := by
  induction steps generalizing s with
  | nil => exact h
  | cons i rest ih =>
    exact ih _ (RegistryLedgerInv_step i.cfg i.now i.st i.metrc i.clients i.data s h)

/-- C1: starting from a provisioned registry (empty movement ledger), after
any sequence of `move_package` calls — in particular any sequence of
successful moves — the registry's stored `location` for every unit equals
the `to_location` of that unit's most recent committed movement row. -/
theorem registry_location_matches_latest_movement (init : AppState)
    (steps : List MoveInput) (hinit : init.db.movements = [])
    (tid : String) (r : MovementRecord)
    (hlast : lastMovementFor (runMoves init steps) tid = some r) :
    (pkgLookup (runMoves init steps).db.packages tid).map Package.location =
      some r.to_location := by
  have hbase : RegistryLedgerInv init := by
    intro t rr hrr
    unfold lastMovementFor at hrr
    rw [hinit] at hrr
    cases hrr
  exact RegistryLedgerInv_runMoves init steps hbase tid r hlast

/-- Witness for C1 at a concrete run: one successful move of T1 from
VegRoom to FlowerRoom. -/
theorem registry_location_matches_latest_movement_witness :
    (pkgLookup (runMoves baseState [oneGoodStep]).db.packages "T1").map
        Package.location = some "FlowerRoom" :=
  registry_location_matches_latest_movement baseState [oneGoodStep] rfl "T1"
    { id := 1, tag_id := "T1", from_location := "VegRoom",
      to_location := "FlowerRoom", timestamp := "t1", metrc_synced := false }
    (by decide)

/-- C2 counterexample: a move of an unknown tag surfaces as a 500, not 404 —
the `HTTPException(404)` raised inside the `try` is caught by
`except Exception` and re-raised as `HTTPException(500, str(e))`. -/
theorem move_unknown_tag_surfaces_500_not_404 :
    statusOf (move_package shippedConfig "t1" benignStorage metrcOk []
        { tag_id := some "GHOST", from_location := some "A", to_location := some "B" }
        baseState).response = some 500 ∧ (500 : Nat) ≠ 404 := by
  exact ⟨rfl, by decide⟩

/-- C2 (corrected): the only transport codes a failing move can surface are
400 (and then only for a missing/empty field) and 500; the internally raised
404 for an unknown tag and 400 for a location mismatch are swallowed by the
blanket exception handler and surface as 500, and no 409 is ever produced. -/
theorem move_error_codes_amended (cfg : Config) (now : String) (st : StorageOracle)
    (metrc : MetrcResult) (clients : List Client) (data : MoveRequest)
    (s : AppState) (e : HTTPError)
    (herr : (move_package cfg now st metrc clients data s).response = .error e) :
    (e.status_code = 400 ∧
      (falsy data.tag_id || falsy data.from_location || falsy data.to_location) = true) ∨
    e.status_code = 500 := by
  unfold move_package at herr
  split at herr
  · rename_i hf
    cases herr
    exact Or.inl ⟨rfl, hf⟩
  · split at herr
    · cases herr; exact Or.inr rfl
    · split at herr
      · cases herr; exact Or.inr rfl
      · split at herr
        · cases herr; exact Or.inr rfl
        · split at herr
          · split at herr
            · cases herr
            · cases herr
          · cases herr; exact Or.inr rfl

/-- Witness for C2's amended theorem at a concrete failing request. -/
theorem move_error_codes_amended_witness :
    ((500 : Nat) = 400 ∧
      (falsy (some "GHOST") || falsy (some "A") || falsy (some "B")) = true) ∨
    (500 : Nat) = 500 :=
  move_error_codes_amended shippedConfig "t1" benignStorage metrcOk []
    { tag_id := some "GHOST", from_location := some "A", to_location := some "B" }
    baseState { status_code := 500, detail := "404: Package GHOST not found" } rfl

/-- C3 counterexample: a stale `from_location` fails with 500 (the inner 400
re-wrapped), not with Conflict/409; state, fan-out and sync are untouched. -/
theorem move_conflict_surfaces_500_not_409 :
    (statusOf (move_package shippedConfig "t1" benignStorage metrcOk []
        { tag_id := some "T1", from_location := some "FlowerRoom",
          to_location := some "DryRoom" } baseState).response = some 500 ∧
      (move_package shippedConfig "t1" benignStorage metrcOk []
        { tag_id := some "T1", from_location := some "FlowerRoom",
          to_location := some "DryRoom" } baseState).state = baseState) ∧
    (500 : Nat) ≠ 409 := by
  exact ⟨⟨rfl, rfl⟩, by decide⟩

/-- C3 (corrected): a move whose tag exists but whose `from_location` differs
from the stored location fails — though with a 500 wrapping the internally
raised 400, not a 409 Conflict — and leaves all state unchanged: no ledger
row, no registry change, no fan-out delivery, no external submission. -/
theorem move_conflict_leaves_state_unchanged (cfg : Config) (now : String)
    (st : StorageOracle) (metrc : MetrcResult) (clients : List Client)
    (data : MoveRequest) (s : AppState) (pkg : Package)
    (hf : (falsy data.tag_id || falsy data.from_location || falsy data.to_location) = false)
    (hlook : pkgLookup s.db.packages (data.tag_id.getD "") = some pkg)
    (hloc : (pkg.location != data.from_location.getD "") = true) :
    move_package cfg now st metrc clients data s =
      { response := .error ⟨500, strOfHTTPError
          ⟨400, "Package " ++ data.tag_id.getD "" ++ " is in " ++ pkg.location ++
            ", not " ++ data.from_location.getD ""⟩⟩,
        state := s, delivered := [], syncAttempted := false } := by
  unfold move_package
  rw [if_neg (by simp [hf]), hlook]
  dsimp only
  rw [if_pos hloc]

/-- Witness for C3's amended theorem at the spec's own scenario state. -/
theorem move_conflict_leaves_state_unchanged_witness :
    move_package shippedConfig "t1" benignStorage metrcOk []
        { tag_id := some "T1", from_location := some "FlowerRoom",
          to_location := some "DryRoom" } baseState =
      { response := .error ⟨500, strOfHTTPError
          ⟨400, "Package T1 is in VegRoom, not FlowerRoom"⟩⟩,
        state := baseState, delivered := [], syncAttempted := false } :=
  move_conflict_leaves_state_unchanged shippedConfig "t1" benignStorage metrcOk []
    { tag_id := some "T1", from_location := some "FlowerRoom",
      to_location := some "DryRoom" } baseState vegPkg rfl rfl rfl

/-- C5 counterexample: a successful move returns only
`{"message": "Package moved successfully"}` — the payload carries none of the
committed MovementRecord's fields (no id, tag_id, locations, timestamp or
sync state). -/
theorem move_success_payload_has_no_record_fields :
    okPayload (move_package shippedConfig "t1" benignStorage metrcOk []
        goodReq baseState).response =
      some [("message", "Package moved successfully")] ∧
    ([("message", "Package moved successfully")].lookup "tag_id" = none ∧
      [("message", "Package moved successfully")].lookup "to_location" = none ∧
      [("message", "Package moved successfully")].lookup "id" = none) := by
  exact ⟨rfl, by decide⟩

/-- C5 (corrected): every successful Move returns only the fixed
acknowledgement object `{"message": "Package moved successfully"}`, never the
committed MovementRecord. -/
theorem move_success_returns_ack_only (cfg : Config) (now : String)
    (st : StorageOracle) (metrc : MetrcResult) (clients : List Client)
    (data : MoveRequest) (s : AppState) (v : List (String × String))
    (hok : (move_package cfg now st metrc clients data s).response = .ok v) :
    v = [("message", "Package moved successfully")] := by
  unfold move_package at hok
  split at hok
  · cases hok
  · split at hok
    · cases hok
    · split at hok
      · cases hok
      · split at hok
        · cases hok
        · split at hok
          · split at hok
            · cases hok; rfl
            · cases hok; rfl
          · cases hok

/-- Witness for C5's amended theorem at a concrete successful move. -/
theorem move_success_returns_ack_only_witness :
    ([("message", "Package moved successfully")] : List (String × String)) =
      [("message", "Package moved successfully")] :=
  move_success_returns_ack_only shippedConfig "t1" benignStorage metrcOk []
    goodReq baseState [("message", "Package moved successfully")] rfl

/-- C8 counterexample: with observers `bad` (whose send raises) then `good`,
publication delivers to nobody — `good` receives the event when alone, but
the failure of `bad` aborts the loop before `good` is reached, so one
observer's failure does prevent delivery to another. -/
theorem broadcast_failure_blocks_later_observers :
    broadcast [("tag_id", "T1")]
        [{ name := "bad", sendOk := false }, { name := "good", sendOk := true }] =
      ([], false) ∧
    broadcast [("tag_id", "T1")] [{ name := "good", sendOk := true }] =
      ([("good", [("tag_id", "T1")])], true) := by
  exact ⟨rfl, rfl⟩

/-- C8 (corrected): `broadcast` delivers the event sequentially and only to
the observers before the first failing one; it completes without error
exactly when every observer's send succeeds, so a failing observer prevents
delivery to every observer after it (and the exception propagates to the
caller of Move). -/
theorem broadcast_delivers_until_first_failure (event : List (String × String))
    (clients : List Client) :
    broadcast event clients =
      ((clients.takeWhile (fun c => c.sendOk)).map (fun c => (c.name, event)),
        clients.all (fun c => c.sendOk)) := by
  induction clients with
  | nil => rfl
  | cons c rest ih =>
    unfold broadcast
    cases hc : c.sendOk with
    | true =>
      simp only [hc, if_pos rfl, ih, List.takeWhile, List.all_cons]
      simp [hc]
    | false =>
      simp only [hc, List.takeWhile, List.all_cons]
      simp [hc]

/-- C9 counterexample: a request with an unknown tag and an empty
`to_location` fails with the 400 missing-fields error, not NotFound/404 —
field presence is checked before tag existence. -/
theorem move_unknown_tag_empty_to_location_gets_400 :
    (move_package shippedConfig "t1" benignStorage metrcOk []
        { tag_id := some "GHOST", from_location := some "A", to_location := some "" }
        baseState).response =
      .error { status_code := 400, detail := "Missing required fields" } ∧
    (400 : Nat) ≠ 404 := by
  exact ⟨rfl, by decide⟩

/-- C9 (corrected): the checks run in the order field-presence/non-emptiness
(400, before anything else — including before tag existence), then tag_id
existence, then from_location match; consequently an empty or missing
`to_location` yields 400 even for an unknown tag, and a request with all
fields present and an unknown tag yields the wrapped 404 regardless of its
`to_location` content. -/
theorem move_precondition_order_amended (cfg : Config) (now : String)
    (st : StorageOracle) (metrc : MetrcResult) (clients : List Client)
    (data : MoveRequest) (s : AppState) :
    (falsy data.to_location = true →
      (move_package cfg now st metrc clients data s).response =
        .error { status_code := 400, detail := "Missing required fields" }) ∧
    ((falsy data.tag_id || falsy data.from_location || falsy data.to_location) = false →
      pkgLookup s.db.packages (data.tag_id.getD "") = none →
      (move_package cfg now st metrc clients data s).response =
        .error ⟨500, strOfHTTPError
          ⟨404, "Package " ++ data.tag_id.getD "" ++ " not found"⟩⟩) := by
  constructor
  · intro hto
    unfold move_package
    rw [if_pos (by simp [hto])]
  · intro hf hlook
    unfold move_package
    rw [if_neg (by simp [hf]), hlook]

/-- Witness for C9's amended theorem: both orderings at concrete requests. -/
theorem move_precondition_order_amended_witness :
    (move_package shippedConfig "t1" benignStorage metrcOk []
        { tag_id := some "GHOST", from_location := some "A", to_location := some "" }
        baseState).response =
      .error { status_code := 400, detail := "Missing required fields" } ∧
    (move_package shippedConfig "t1" benignStorage metrcOk []
        { tag_id := some "GHOST", from_location := some "A", to_location := some "B" }
        baseState).response =
      .error ⟨500, strOfHTTPError ⟨404, "Package GHOST not found"⟩⟩ :=
  ⟨(move_precondition_order_amended shippedConfig "t1" benignStorage metrcOk []
      { tag_id := some "GHOST", from_location := some "A", to_location := some "" }
      baseState).1 rfl,
   (move_precondition_order_amended shippedConfig "t1" benignStorage metrcOk []
      { tag_id := some "GHOST", from_location := some "A", to_location := some "B" }
      baseState).2 rfl rfl⟩

lemma getLast?_append_single {α : Type} (l : List α) (a : α) :
    (l ++ [a]).getLast? = some a := by
  induction l with
  | nil => rfl
  | cons b t ih =>
    cases t with
    | nil => rfl
    | cons c t2 =>
      rw [List.cons_append, List.cons_append, List.getLast?_cons_cons,
        ← List.cons_append]
      exact ih

lemma getLast?_map {α β : Type} (g : α → β) (l : List α) :
    (l.map g).getLast? = (l.getLast?).map g := by
  induction l with
  | nil => rfl
  | cons a t ih =>
    cases t with
    | nil => rfl
    | cons b t2 =>
      rw [List.map_cons, List.map_cons, List.getLast?_cons_cons,
        List.getLast?_cons_cons, ← List.map_cons]
      exact ih

lemma sync_movements_netError (cfg : Config) (msg tid nl ts : String)
    (s : AppState) :
    (sync_with_metrc cfg (.netError msg) tid nl ts s).db.movements =
      s.db.movements := rfl

lemma sync_movements_cases (cfg : Config) (res : MetrcResult) (tid nl ts : String)
    (s : AppState) :
    (sync_with_metrc cfg res tid nl ts s).db.movements = s.db.movements ∨
    (sync_with_metrc cfg res tid nl ts s).db.movements =
      s.db.movements.map (syncMark tid ts) := by
  cases res with
  | status code text =>
    by_cases h : (code == 200) = true
    · exact Or.inr (sync_movements_200 cfg code text tid nl ts s h)
    · exact Or.inl (sync_movements_not200 cfg code text tid nl ts s (by simpa using h))
  | netError msg => exact Or.inl rfl

lemma sync_pendingFile_grows (cfg : Config) (res : MetrcResult) (tid nl ts : String)
    (s : AppState) :
    ∃ tail, (sync_with_metrc cfg res tid nl ts s).pendingSyncFile =
      s.pendingSyncFile ++ tail := by
  cases res with
  | status code text =>
    by_cases h : (code == 200) = true
    · refine ⟨[], ?_⟩
      simp only [sync_with_metrc]
      rw [if_pos h, List.append_nil]
    · refine ⟨[metrcPayload cfg tid nl ts], ?_⟩
      simp only [sync_with_metrc]
      rw [if_neg h]
  | netError msg =>
    exact ⟨[[("tag_id", tid), ("new_location", nl), ("timestamp", ts)]], rfl⟩

lemma move_package_ok_implies (cfg : Config) (now : String) (st : StorageOracle)
    (metrc : MetrcResult) (clients : List Client) (data : MoveRequest)
    (s : AppState) (v : List (String × String))
    (hok : (move_package cfg now st metrc clients data s).response = .ok v) :
    (falsy data.tag_id || falsy data.from_location || falsy data.to_location) = false ∧
    ∃ pkg, pkgLookup s.db.packages (data.tag_id.getD "") = some pkg ∧
      (pkg.location != data.from_location.getD "") = false ∧
      (st.updateFails || st.insertFails || st.commitFails) = false := by
  cases hf : (falsy data.tag_id || falsy data.from_location || falsy data.to_location) with
  | true =>
    unfold move_package at hok
    rw [if_pos hf] at hok
    exact Except.noConfusion hok
  | false =>
    refine ⟨rfl, ?_⟩
    cases hlook : pkgLookup s.db.packages (data.tag_id.getD "") with
    | none =>
      unfold move_package at hok
      rw [if_neg (by simp [hf]), hlook] at hok
      exact Except.noConfusion hok
    | some pkg =>
      refine ⟨pkg, rfl, ?_⟩
      cases hloc : (pkg.location != data.from_location.getD "") with
      | true =>
        unfold move_package at hok
        rw [if_neg (by simp [hf]), hlook] at hok
        dsimp only at hok
        rw [if_pos hloc] at hok
        exact Except.noConfusion hok
      | false =>
        refine ⟨rfl, ?_⟩
        cases hst : (st.updateFails || st.insertFails || st.commitFails) with
        | true =>
          unfold move_package move_commit at hok
          rw [if_neg (by simp [hf]), hlook] at hok
          dsimp only at hok
          rw [if_neg (by simp [hloc]), if_pos hst] at hok
          exact Except.noConfusion hok
        | false => rfl

lemma move_package_committed_state (cfg : Config) (now : String)
    (st : StorageOracle) (metrc : MetrcResult) (clients : List Client)
    (data : MoveRequest) (s : AppState) (pkg : Package)
    (hf : (falsy data.tag_id || falsy data.from_location || falsy data.to_location) = false)
    (hlook : pkgLookup s.db.packages (data.tag_id.getD "") = some pkg)
    (hloc : (pkg.location != data.from_location.getD "") = false)
    (hst : (st.updateFails || st.insertFails || st.commitFails) = false) :
    (move_package cfg now st metrc clients data s).state =
      committedAppState data now s ∨
    (move_package cfg now st metrc clients data s).state =
      sync_with_metrc cfg metrc (data.tag_id.getD "") (data.to_location.getD "")
        now (committedAppState data now s) := by
  unfold move_package move_commit
  rw [if_neg (by simp [hf]), hlook]
  dsimp only
  rw [if_neg (by simp [hloc]), if_neg (by simp [hst])]
  dsimp only
  unfold committedAppState
  split
  · split
    · exact Or.inr rfl
    · exact Or.inl rfl
  · exact Or.inl rfl

/-- C4 (confirmed): the registry update and the ledger append of a move are
one atomic commit. If any write of the critical section fails, the request
fails and nothing — registry, ledger or retry file — changes. If the caller
sees success, the registry row carries the new location/status/timestamp and
exactly one new ledger row was appended (with `metrc_synced` false at commit;
a later 200 sync may flip flags, which is the `syncMark` alternative). -/
theorem move_commit_is_atomic (cfg : Config) (now : String) (st : StorageOracle)
    (metrc : MetrcResult) (clients : List Client) (data : MoveRequest)
    (s : AppState) :
    ((st.updateFails || st.insertFails || st.commitFails) = true →
      (move_package cfg now st metrc clients data s).state = s ∧
      ∃ e, (move_package cfg now st metrc clients data s).response = .error e) ∧
    (∀ v, (move_package cfg now st metrc clients data s).response = .ok v →
      ∃ pkg, pkgLookup s.db.packages (data.tag_id.getD "") = some pkg ∧
        pkgLookup (move_package cfg now st metrc clients data s).state.db.packages
            (data.tag_id.getD "") = some (movedPackage data now pkg) ∧
        ((move_package cfg now st metrc clients data s).state.db.movements =
            s.db.movements ++ [newMovementRecord data now s.db] ∨
          (move_package cfg now st metrc clients data s).state.db.movements =
            (s.db.movements ++ [newMovementRecord data now s.db]).map
              (syncMark (data.tag_id.getD "") now))) := by
  constructor
  · intro hst
    unfold move_package move_commit
    rw [if_pos hst]
    split
    · exact ⟨rfl, ⟨_, rfl⟩⟩
    · split
      · exact ⟨rfl, ⟨_, rfl⟩⟩
      · split
        · exact ⟨rfl, ⟨_, rfl⟩⟩
        · exact ⟨rfl, ⟨_, rfl⟩⟩
  · intro v hok
    obtain ⟨hf, pkg, hlook, hloc, hst⟩ :=
      move_package_ok_implies cfg now st metrc clients data s v hok
    rcases move_package_committed_state cfg now st metrc clients data s pkg
        hf hlook hloc hst with hstate | hstate
    · refine ⟨pkg, hlook, ?_, Or.inl ?_⟩
      · rw [hstate]
        unfold committedAppState commitDB
        dsimp only
        rw [pkgLookup_pkgUpdate_self, hlook]
        rfl
      · rw [hstate]
        rfl
    · rcases sync_movements_cases cfg metrc (data.tag_id.getD "")
          (data.to_location.getD "") now (committedAppState data now s) with hm | hm
      · refine ⟨pkg, hlook, ?_, Or.inl ?_⟩
        · rw [hstate, sync_packages]
          unfold committedAppState commitDB
          dsimp only
          rw [pkgLookup_pkgUpdate_self, hlook]
          rfl
        · rw [hstate, hm]
          rfl
      · refine ⟨pkg, hlook, ?_, Or.inr ?_⟩
        · rw [hstate, sync_packages]
          unfold committedAppState commitDB
          dsimp only
          rw [pkgLookup_pkgUpdate_self, hlook]
          rfl
        · rw [hstate, hm]
          rfl

/-- Witness for C4: with a failing UPDATE, the move fails and the state is
exactly the starting state. -/
theorem move_commit_is_atomic_witness :
    (move_package shippedConfig "t1" failStorage metrcOk [] goodReq
        baseState).state = baseState ∧
    ∃ e, (move_package shippedConfig "t1" failStorage metrcOk [] goodReq
        baseState).response = .error e :=
  (move_commit_is_atomic shippedConfig "t1" failStorage metrcOk [] goodReq
    baseState).1 rfl

/-- C10 (confirmed): every successful move leaves the unit's registry row
with `status = "Active"` (whatever it was before) and with `last_updated`
equal to the timestamp of the movement row appended by that move. -/
theorem move_success_sets_active_and_shared_timestamp (cfg : Config)
    (now : String) (st : StorageOracle) (metrc : MetrcResult)
    (clients : List Client) (data : MoveRequest) (s : AppState)
    (v : List (String × String))
    (hok : (move_package cfg now st metrc clients data s).response = .ok v) :
    ∃ pkg rlast,
      pkgLookup (move_package cfg now st metrc clients data s).state.db.packages
          (data.tag_id.getD "") = some pkg ∧
      (move_package cfg now st metrc clients data s).state.db.movements.getLast? =
        some rlast ∧
      pkg.status = "Active" ∧ pkg.last_updated = rlast.timestamp ∧
      rlast.timestamp = now := by
  obtain ⟨hf, pkg0, hlook, hloc, hst⟩ :=
    move_package_ok_implies cfg now st metrc clients data s v hok
  rcases move_package_committed_state cfg now st metrc clients data s pkg0
      hf hlook hloc hst with hstate | hstate
  · refine ⟨movedPackage data now pkg0, newMovementRecord data now s.db,
      ?_, ?_, rfl, rfl, rfl⟩
    · rw [hstate]
      unfold committedAppState commitDB
      dsimp only
      rw [pkgLookup_pkgUpdate_self, hlook]
      rfl
    · rw [hstate]
      exact getLast?_append_single _ _
  · rcases sync_movements_cases cfg metrc (data.tag_id.getD "")
        (data.to_location.getD "") now (committedAppState data now s) with hm | hm
    · refine ⟨movedPackage data now pkg0, newMovementRecord data now s.db,
        ?_, ?_, rfl, rfl, rfl⟩
      · rw [hstate, sync_packages]
        unfold committedAppState commitDB
        dsimp only
        rw [pkgLookup_pkgUpdate_self, hlook]
        rfl
      · rw [hstate, hm]
        exact getLast?_append_single _ _
    · refine ⟨movedPackage data now pkg0,
        syncMark (data.tag_id.getD "") now (newMovementRecord data now s.db),
        ?_, ?_, rfl, ?_, ?_⟩
      · rw [hstate, sync_packages]
        unfold committedAppState commitDB
        dsimp only
        rw [pkgLookup_pkgUpdate_self, hlook]
        rfl
      · rw [hstate, hm]
        have hmovs : (committedAppState data now s).db.movements =
            s.db.movements ++ [newMovementRecord data now s.db] := rfl
        rw [hmovs, getLast?_map, getLast?_append_single]
        rfl
      · rw [syncMark_timestamp]
        rfl
      · rw [syncMark_timestamp]
        rfl

/-- Witness for C10 at a concrete successful move. -/
theorem move_success_sets_active_and_shared_timestamp_witness :
    ∃ pkg rlast,
      pkgLookup (move_package shippedConfig "t1" benignStorage metrcOk []
          goodReq baseState).state.db.packages "T1" = some pkg ∧
      (move_package shippedConfig "t1" benignStorage metrcOk []
          goodReq baseState).state.db.movements.getLast? = some rlast ∧
      pkg.status = "Active" ∧ pkg.last_updated = rlast.timestamp ∧
      rlast.timestamp = "t1" :=
  move_success_sets_active_and_shared_timestamp shippedConfig "t1" benignStorage
    metrcOk [] goodReq baseState [("message", "Package moved successfully")] rfl

lemma sync_db_not200 (cfg : Config) (code : Nat) (text tid nl ts : String)
    (s : AppState) (h : (code == 200) = false) :
    (sync_with_metrc cfg (.status code text) tid nl ts s).db = s.db := by
  simp only [sync_with_metrc]
  rw [if_neg (by simp [h])]

lemma sync_db_netError (cfg : Config) (msg tid nl ts : String) (s : AppState) :
    (sync_with_metrc cfg (.netError msg) tid nl ts s).db = s.db := rfl

lemma sync_pendingFile_not200 (cfg : Config) (code : Nat) (text tid nl ts : String)
    (s : AppState) (h : (code == 200) = false) :
    (sync_with_metrc cfg (.status code text) tid nl ts s).pendingSyncFile =
      s.pendingSyncFile ++ [metrcPayload cfg tid nl ts] := by
  simp only [sync_with_metrc]
  rw [if_neg (by simp [h])]

lemma sync_pendingFile_netError (cfg : Config) (msg tid nl ts : String)
    (s : AppState) :
    (sync_with_metrc cfg (.netError msg) tid nl ts s).pendingSyncFile =
      s.pendingSyncFile ++ [[("tag_id", tid), ("new_location", nl), ("timestamp", ts)]] :=
  rfl

lemma move_package_sync_branch (cfg : Config) (now : String) (st : StorageOracle)
    (metrc : MetrcResult) (clients : List Client) (data : MoveRequest)
    (s : AppState) (pkg : Package)
    (hf : (falsy data.tag_id || falsy data.from_location || falsy data.to_location) = false)
    (hlook : pkgLookup s.db.packages (data.tag_id.getD "") = some pkg)
    (hloc : (pkg.location != data.from_location.getD "") = false)
    (hst : (st.updateFails || st.insertFails || st.commitFails) = false)
    (hb : (broadcast (moveEvent data now) clients).2 = true)
    (hcred : (cfg.metrc_api_key != "" && cfg.facility_license != "") = true) :
    (move_package cfg now st metrc clients data s).response =
      .ok [("message", "Package moved successfully")] ∧
    (move_package cfg now st metrc clients data s).state =
      sync_with_metrc cfg metrc (data.tag_id.getD "") (data.to_location.getD "")
        now (committedAppState data now s) ∧
    (move_package cfg now st metrc clients data s).syncAttempted = true := by
  unfold move_package move_commit
  rw [if_neg (by simp [hf]), hlook]
  dsimp only
  rw [if_neg (by simp [hloc]), if_neg (by simp [hst])]
  dsimp only
  rw [if_pos hb, if_pos hcred]
  exact ⟨rfl, rfl, rfl⟩

lemma move_package_state_shape (cfg : Config) (now : String) (st : StorageOracle)
    (metrc : MetrcResult) (clients : List Client) (data : MoveRequest)
    (s : AppState) :
    (move_package cfg now st metrc clients data s).state = s ∨
    (move_package cfg now st metrc clients data s).state =
      committedAppState data now s ∨
    (move_package cfg now st metrc clients data s).state =
      sync_with_metrc cfg metrc (data.tag_id.getD "") (data.to_location.getD "")
        now (committedAppState data now s) := by
  unfold move_package move_commit
  split
  · exact Or.inl rfl
  split
  · exact Or.inl rfl
  split
  · exact Or.inl rfl
  by_cases hst : (st.updateFails || st.insertFails || st.commitFails) = true
  · rw [if_pos hst]
    exact Or.inl rfl
  · rw [if_neg hst]
    dsimp only
    unfold committedAppState
    split
    · split
      · exact Or.inr (Or.inr rfl)
      · exact Or.inr (Or.inl rfl)
    · exact Or.inr (Or.inl rfl)

/-- C6 counterexample: with credentials set and a METRC submission that
times out (raises), the caller still gets success and a retry entry is
written, but the movement row's sync flag does not transition to any
"failed" value — the `metrc_synced` BOOLEAN stays `False`, the same value
that encodes pending. -/
theorem move_sync_timeout_keeps_record_pending :
    (move_package credCfg "t1" benignStorage (.netError "timeout") [] goodReq
        baseState).response = .ok [("message", "Package moved successfully")] ∧
    ((move_package credCfg "t1" benignStorage (.netError "timeout") [] goodReq
        baseState).state.db.movements.getLast?).map (fun r => r.metrc_synced) =
      some false ∧
    (move_package credCfg "t1" benignStorage (.netError "timeout") [] goodReq
        baseState).state.pendingSyncFile =
      [[("tag_id", "T1"), ("new_location", "FlowerRoom"), ("timestamp", "t1")]] := by
  exact ⟨rfl, rfl, rfl⟩

/-- C6 (corrected): when the local commit and broadcast succeed, credentials
are configured, and the METRC submission fails (non-200 or a raised network
error / timeout), the caller still receives the success response, the
locally committed registry and ledger are untouched by the failure, a retry
entry is appended to `pending_metrc_sync.json` — but the record's
`metrc_synced` flag stays `false` (the pending value); the schema has no
distinct "failed" state. -/
theorem move_sync_failure_is_isolated (cfg : Config) (now : String)
    (st : StorageOracle) (metrc : MetrcResult) (clients : List Client)
    (data : MoveRequest) (s : AppState) (pkg : Package)
    (hf : (falsy data.tag_id || falsy data.from_location || falsy data.to_location) = false)
    (hlook : pkgLookup s.db.packages (data.tag_id.getD "") = some pkg)
    (hloc : (pkg.location != data.from_location.getD "") = false)
    (hst : (st.updateFails || st.insertFails || st.commitFails) = false)
    (hb : (broadcast (moveEvent data now) clients).2 = true)
    (hcred : (cfg.metrc_api_key != "" && cfg.facility_license != "") = true)
    (hfail : metrcFailed metrc) :
    (move_package cfg now st metrc clients data s).response =
      .ok [("message", "Package moved successfully")] ∧
    (move_package cfg now st metrc clients data s).state.db =
      commitDB now (data.tag_id.getD "") (data.from_location.getD "")
        (data.to_location.getD "") s.db ∧
    ((move_package cfg now st metrc clients data s).state.db.movements.getLast?).map
        (fun r => r.metrc_synced) = some false ∧
    ∃ entry, (move_package cfg now st metrc clients data s).state.pendingSyncFile =
      s.pendingSyncFile ++ [entry] := by
  obtain ⟨hresp, hstate, _⟩ := move_package_sync_branch cfg now st metrc clients
    data s pkg hf hlook hloc hst hb hcred
  have hdb : (move_package cfg now st metrc clients data s).state.db =
      commitDB now (data.tag_id.getD "") (data.from_location.getD "")
        (data.to_location.getD "") s.db := by
    rw [hstate]
    cases metrc with
    | status code text =>
      have hcode : (code == 200) = false := by
        rw [beq_eq_false_iff_ne]
        exact hfail
      rw [sync_db_not200 _ _ _ _ _ _ _ hcode]
      rfl
    | netError msg => rfl
  refine ⟨hresp, hdb, ?_, ?_⟩
  · rw [hdb]
    have hmovs : (commitDB now (data.tag_id.getD "") (data.from_location.getD "")
        (data.to_location.getD "") s.db).movements =
        s.db.movements ++ [newMovementRecord data now s.db] := rfl
    rw [hmovs, getLast?_append_single]
    rfl
  · rw [hstate]
    cases metrc with
    | status code text =>
      have hcode : (code == 200) = false := by
        rw [beq_eq_false_iff_ne]
        exact hfail
      refine ⟨metrcPayload cfg (data.tag_id.getD "") (data.to_location.getD "") now, ?_⟩
      rw [sync_pendingFile_not200 _ _ _ _ _ _ _ hcode]
      rfl
    | netError msg =>
      exact ⟨[("tag_id", data.tag_id.getD ""),
        ("new_location", data.to_location.getD ""), ("timestamp", now)], rfl⟩

/-- Witness for C6's amended theorem: concrete timed-out submission. -/
theorem move_sync_failure_is_isolated_witness :
    (move_package credCfg "t1" benignStorage (.netError "timeout") [] goodReq
        baseState).response = .ok [("message", "Package moved successfully")] ∧
    (move_package credCfg "t1" benignStorage (.netError "timeout") [] goodReq
        baseState).state.db = commitDB "t1" "T1" "VegRoom" "FlowerRoom" baseState.db ∧
    ((move_package credCfg "t1" benignStorage (.netError "timeout") [] goodReq
        baseState).state.db.movements.getLast?).map (fun r => r.metrc_synced) =
      some false ∧
    ∃ entry, (move_package credCfg "t1" benignStorage (.netError "timeout") []
        goodReq baseState).state.pendingSyncFile = baseState.pendingSyncFile ++ [entry] :=
  move_sync_failure_is_isolated credCfg "t1" benignStorage (.netError "timeout")
    [] goodReq baseState vegPkg rfl rfl rfl rfl rfl rfl trivial

/-- C7 counterexample: with the shipped (empty) credentials, a successful
move commits a movement row that is not confirmed (`metrc_synced = false`),
no sync is ever attempted, and the retry queue stays empty — the
non-confirmed record is not discoverable in the retry queue. -/
theorem pending_record_absent_from_retry_queue :
    (move_package shippedConfig "t1" benignStorage metrcOk [] goodReq
        baseState).state.db.movements =
      [{ id := 1, tag_id := "T1", from_location := "VegRoom",
         to_location := "FlowerRoom", timestamp := "t1", metrc_synced := false }] ∧
    (move_package shippedConfig "t1" benignStorage metrcOk [] goodReq
        baseState).state.pendingSyncFile = [] ∧
    (move_package shippedConfig "t1" benignStorage metrcOk [] goodReq
        baseState).syncAttempted = false := by
  exact ⟨rfl, rfl, rfl⟩

/-- C7 (corrected): no committed movement row is ever lost from the ledger:
every row survives any further `move_package` call with its identity fields
intact and its sync flag only advancing (false to true), and the retry file
only ever grows. A non-confirmed record is therefore always discoverable in
the ledger; it appears in the retry queue only after a failed submission
attempt (never while merely pending, e.g. when sync is disabled). -/
theorem movement_records_never_lost (cfg : Config) (now : String)
    (st : StorageOracle) (metrc : MetrcResult) (clients : List Client)
    (data : MoveRequest) (s : AppState) :
    (∀ r, r ∈ s.db.movements →
      ∃ rk, rk ∈ (move_package cfg now st metrc clients data s).state.db.movements ∧
        recordKept r rk) ∧
    (∃ tail, (move_package cfg now st metrc clients data s).state.pendingSyncFile =
      s.pendingSyncFile ++ tail) := by
  rcases move_package_state_shape cfg now st metrc clients data s with h | h | h
  · rw [h]
    exact ⟨fun r hr => ⟨r, hr, rfl, rfl, rfl, rfl, rfl, fun hs => hs⟩,
      ⟨[], (List.append_nil _).symm⟩⟩
  · rw [h]
    constructor
    · intro r hr
      exact ⟨r, List.mem_append_left _ hr, rfl, rfl, rfl, rfl, rfl, fun hs => hs⟩
    · exact ⟨[], (List.append_nil _).symm⟩
  · rw [h]
    constructor
    · intro r hr
      rcases sync_movements_cases cfg metrc (data.tag_id.getD "")
          (data.to_location.getD "") now (committedAppState data now s) with hm | hm
      · rw [hm]
        exact ⟨r, List.mem_append_left _ hr, rfl, rfl, rfl, rfl, rfl, fun hs => hs⟩
      · rw [hm]
        refine ⟨syncMark (data.tag_id.getD "") now r,
          List.mem_map_of_mem _ (List.mem_append_left _ hr),
          syncMark_id _ _ _, syncMark_tag_id _ _ _, syncMark_from_location _ _ _,
          syncMark_to_location _ _ _, syncMark_timestamp _ _ _,
          fun hs => syncMark_synced_mono _ _ _ hs⟩
    · exact sync_pendingFile_grows cfg metrc (data.tag_id.getD "")
        (data.to_location.getD "") now (committedAppState data now s)

/-- Witness for C7's amended theorem: the earlier row survives a second move. -/
theorem movement_records_never_lost_witness :
    ∃ rk, rk ∈ (move_package shippedConfig "t2" benignStorage metrcOk []
        { tag_id := some "T1", from_location := some "FlowerRoom",
          to_location := some "DryRoom" } movedState).state.db.movements ∧
      recordKept rec1 rk :=
  (movement_records_never_lost shippedConfig "t2" benignStorage metrcOk []
    { tag_id := some "T1", from_location := some "FlowerRoom",
      to_location := some "DryRoom" } movedState).1 rec1 (by decide)
